import Mathlib

/-!
Shallow embedding of the order-management pipeline (Express API plus the
lambda handlers lambda-preparacao, lambda-envio, lambda-notificacao and
lambda-confirmacao) over the DynamoDB table `pedidos` and the S3 document
bucket, together with theorems settling the specification claims.

Modelling conventions, used throughout:
* ISO-8601 timestamps are represented as epoch milliseconds (`Nat`); the
  string form is a bijective encoding and only ordering/arithmetic on the
  instant is ever used by the code.
* JSON numbers are represented as `Rat`; `parseFloat` applied to a JSON
  number is the identity.
* A JavaScript value that may be `undefined` is an `Option`; the JS
  truthiness test `!x` on an optional string is false exactly for
  `undefined` and the empty string.
* The AWS SDK calls are replaced by explicit state: the DynamoDB table is
  a key-unique association list of items, S3 writes are collected in a
  list, and fallible transport calls (SES send, S3 head) are parametrised
  by an oracle telling which calls fail.
-/

namespace ProjetoAws

/-- JS truthiness filter on an optional string: `undefined` and `""` are
falsy and collapse to `none` (this is the meaning of `x || null` and of a
guard `if (!x) ...` in the source). -/
def jsTruthy : Option String → Option String
  | none => none
  | some s => if s = "" then none else some s

/-- Boolean form of JS truthiness for an optional string field. -/
def truthyS (o : Option String) : Bool :=
  (jsTruthy o).isSome

/-- JS truthiness of an optional JSON number (`undefined` and `0` are
falsy; JSON cannot carry `NaN`). -/
def truthyN : Option Rat → Bool
  | none => false
  | some q => q != 0

/-- An item of the DynamoDB table `pedidos`. DynamoDB is schemaless, so
every attribute other than the key `idPedido` is optional: an item created
by the unconditional `UpdateCommand` upsert in lambda-confirmacao carries
only the key and the SET attributes. `data` and `dataEnvio` are epoch
milliseconds, `valor` a JSON number. -/
structure Item where
  idPedido : String
  emailCliente : Option String := none
  nomeCliente : Option String := none
  valor : Option Rat := none
  data : Option Nat := none
  status : Option String := none
  referenciaNota : Option String := none
  dataEnvio : Option Nat := none
deriving DecidableEq, Repr

/-- The DynamoDB table: a list of items, kept key-unique by `putPedido`. -/
abbrev Store := List Item

/-- `GetCommand` keyed on `idPedido`. -/
def getPedido (store : Store) (idPedido : String) : Option Item :=
  store.find? (fun p => p.idPedido == idPedido)

/-- `PutCommand` (full replace of the item with the same key) keyed on
`idPedido`; also the effect of an `UpdateCommand` once the updated item is
known. -/
def putPedido (store : Store) (item : Item) : Store :=
  item :: store.filter (fun p => p.idPedido != item.idPedido)

theorem find?_filter_of_imp (p q : α → Bool) (h : ∀ x, p x = true → q x = true) :
    ∀ l : List α, (l.filter q).find? p = l.find? p := by
  intro l
  induction l with
  | nil => rfl
  | cons a t ih =>
    cases hq : q a with
    | false =>
      have hp : p a = false := by
        cases hpa : p a with
        | false => rfl
        | true => rw [h a hpa] at hq; exact absurd hq (by simp)
      simp [List.filter_cons, hq, List.find?, hp, ih]
    | true =>
      cases hpa : p a with
      | false => simp [List.filter_cons, hq, List.find?, hpa, ih]
      | true => simp [List.filter_cons, hq, List.find?, hpa]

theorem getPedido_putPedido (store : Store) (item : Item) (j : String) :
    getPedido (putPedido store item) j =
      if item.idPedido = j then some item else getPedido store j := by
  by_cases h : item.idPedido = j
  · simp [getPedido, putPedido, List.find?, h]
  · have hb : (item.idPedido == j) = false := by
      simp [h]
    simp only [getPedido, putPedido, List.find?, hb, if_neg h]
    exact find?_filter_of_imp _ _
      (fun x hx => by
        have hxj : x.idPedido = j := by simpa using hx
        simp [hxj, Ne.symm h]) store

theorem getPedido_eq_some (store : Store) (idPedido : String) (item : Item)
    (h : getPedido store idPedido = some item) : item.idPedido = idPedido := by
  have := List.find?_some h
  simpa using this

namespace ApiPedidos

/-- Request body of `POST /pedidos`. Optional fields model attributes that
may be absent from the JSON body; `valor` is a JSON number per the API
schema and `dataEnvio` a timestamp. -/
structure CriarPedidoReq where
  emailCliente : Option String := none
  nomeCliente : Option String := none
  valor : Option Rat := none
  status : Option String := none
  referenciaNota : Option String := none
  dataEnvio : Option Nat := none
deriving DecidableEq, Repr

/-- Response of `POST /pedidos` (the 500 branch for a store failure is out
of scope: the store is modelled as always reachable). -/
inductive CriarPedidoResp where
  | badRequest (error : String)
  | created (pedido : Item)
deriving DecidableEq, Repr

/-- The item built by `POST /pedidos` once validation passed: fresh id,
creation timestamp `data := agora`, `parseFloat` of the JSON number is the
number itself, destructuring default `status = RECEBIDO` applies when the
field is absent, and `referenciaNota || null` collapses a falsy value. -/
def pedidoDe (req : CriarPedidoReq) (freshId : String) (agora : Nat) : Item :=
  { idPedido := freshId
    emailCliente := req.emailCliente
    nomeCliente := req.nomeCliente
    valor := req.valor
    data := some agora
    status := some (req.status.getD "RECEBIDO")
    referenciaNota := jsTruthy req.referenciaNota
    dataEnvio := req.dataEnvio }

/-- Handler of `POST /pedidos`: the guard is the source's
`if (!emailCliente || !nomeCliente || !valor)`; on success the item is
persisted with `PutCommand` and echoed with 201. -/
def criarPedido (req : CriarPedidoReq) (freshId : String) (agora : Nat)
    (store : Store) : CriarPedidoResp × Store :=
  if !truthyS req.emailCliente || !truthyS req.nomeCliente || !truthyN req.valor then
    (.badRequest "emailCliente, nomeCliente e valor são obrigatórios", store)
  else
    (.created (pedidoDe req freshId agora), putPedido store (pedidoDe req freshId agora))

/-- Response of `POST /pedidos/:idPedido/upload`. -/
inductive UploadResp where
  | semArquivo
  | naoEncontrado
  | ok (fileKey : String)
deriving DecidableEq, Repr

/-- One `PutObjectCommand` issued to the bucket: key and the `idPedido`
metadata attached to the object. -/
structure S3Put where
  key : String
  metaIdPedido : String
deriving DecidableEq, Repr

/-- Handler of `POST /pedidos/:idPedido/upload`: 400 when no file is in
the request, then a `GetCommand` existence check, 404 when the order is
unknown, otherwise one S3 put of `${Date.now()}-${originalname}` with the
`idPedido` metadata. The returned list collects the object-store writes
performed. -/
def uploadArquivo (store : Store) (idPedido : String)
    (file : Option String) (agora : Nat) : UploadResp × List S3Put :=
  match file with
  | none => (.semArquivo, [])
  | some originalname =>
    match getPedido store idPedido with
    | none => (.naoEncontrado, [])
    | some _ =>
      let fileKey := toString agora ++ "-" ++ originalname
      (.ok fileKey, [{ key := fileKey, metaIdPedido := idPedido }])

end ApiPedidos

namespace LambdaPreparacao

/-- One DynamoDB access performed by a handler, recorded in order. -/
inductive StoreOp where
  | read (idPedido : String)
  | write (idPedido : String)
deriving DecidableEq, Repr

/-- Response of the lambda-preparacao entry point (the 500 branch for a
store failure is out of scope: store operations are modelled as always
succeeding). -/
inductive Resp where
  | badRequest
  | notFound
  | ok (pedido : Item)
deriving DecidableEq, Repr

/-- Handler of lambda-preparacao. `idPedido` is the field of the decoded
request body (absent when the body lacks it). The source: 400 on a falsy
`idPedido`, then a `GetCommand`, 404 when no item exists, otherwise an
`UpdateCommand` setting only `status = PREPARACAO` and returning ALL_NEW.
The third component records the DynamoDB operations performed. -/
def handler (store : Store) (idPedido : Option String) :
    Resp × Store × List StoreOp :=
  match jsTruthy idPedido with
  | none => (.badRequest, store, [])
  | some id =>
    match getPedido store id with
    | none => (.notFound, store, [.read id])
    | some item =>
      let atualizado := { item with status := some "PREPARACAO" }
      (.ok atualizado, putPedido store atualizado, [.read id, .write id])

end LambdaPreparacao

namespace LambdaEnvio

/-- Age filter of lambda-envio: `diferencaMinutos = (agora − data) / (1000*60)`
compared with `> 4` in JS number arithmetic; an item without a `data`
attribute gives an Invalid Date, whose NaN comparison is false. -/
def pendente (agora : Nat) (pedido : Item) : Bool :=
  match pedido.data with
  | none => false
  | some dataPedido =>
    decide ((4 : Rat) < ((agora : Rat) - (dataPedido : Rat)) / (1000 * 60))

/-- Selection phase of the lambda-envio handler: the `ScanCommand` with
`FilterExpression #status = :status` for the literal `'RECEBIMENTO'`,
followed by the in-memory age filter. These are exactly the orders for
which the handler then calls the preparation API. -/
def handlerSelect (store : Store) (agora : Nat) : List Item :=
  let pedidos := store.filter (fun p => p.status == some "RECEBIMENTO")
  pedidos.filter (pendente agora)

theorem pendente_iff (agora : Nat) (p : Item) :
    pendente agora p =
      match p.data with
      | none => false
      | some d => decide ((240000 : Int) < (agora : Int) - (d : Int)) := by
  unfold pendente
  cases p.data with
  | none => rfl
  | some d =>
    refine decide_eq_decide.mpr ?_
    rw [lt_div_iff₀ (by norm_num : (0 : Rat) < 1000 * 60)]
    rw [show (4 : Rat) * (1000 * 60) = ((240000 : Int) : Rat) by norm_num]
    rw [show (agora : Rat) - (d : Rat) = (((agora : Int) - (d : Int) : Int) : Rat) by push_cast; ring]
    exact Int.cast_lt

theorem handlerSelect_eq (store : Store) (agora : Nat) :
    handlerSelect store agora =
      (store.filter (fun p => p.status == some "RECEBIMENTO")).filter
        (fun p =>
          match p.data with
          | none => false
          | some d => decide ((240000 : Int) < (agora : Int) - (d : Int))) := by
  unfold handlerSelect
  exact List.filter_congr (fun p _ => pendente_iff agora p)

end LambdaEnvio

namespace LambdaNotificacao

/-- Subject line of the email template keyed by order status; `none` for a
status with no template (the body is presentation-only interpolation of
the same record and is not modelled). -/
def emailTemplates : String → Option String
  | "RECEBIMENTO" => some "Pedido Recebido - Confirmação"
  | "PREPARACAO" => some "Pedido em Preparação"
  | "ENVIADO" => some "Pedido Enviado"
  | _ => none

/-- One SES `SendEmailCommand`: recipient and subject. -/
structure Email where
  destinatario : String
  assunto : String
deriving DecidableEq, Repr

/-- Event name of a DynamoDB stream record. -/
inductive EventName where
  | INSERT
  | MODIFY
  | REMOVE
deriving DecidableEq, Repr

/-- A DynamoDB stream record: `OldImage` is absent on an insert; the
stream guarantees a `NewImage` on MODIFY records, the only ones the
handler reads it from. -/
structure StreamRecord where
  eventName : EventName
  oldImage : Option Item := none
  newImage : Item
deriving DecidableEq, Repr

/-- Decision of the lambda-notificacao handler for a single stream
record: skip unless the event is MODIFY, skip when the status did not
change (`oldImage?.status?.S === newImage?.status?.S`), skip when
`emailTemplates[newStatus]` is absent, skip when `emailCliente` is falsy,
otherwise exactly one email to `emailCliente` with the template's
subject. -/
def processRecord (record : StreamRecord) : Option Email :=
  if record.eventName = .MODIFY then
    let oldStatus := record.oldImage.bind Item.status
    let newStatus := record.newImage.status
    if oldStatus = newStatus then
      none
    else
      match newStatus.bind emailTemplates with
      | none => none
      | some assunto =>
        match jsTruthy record.newImage.emailCliente with
        | none => none
        | some destinatario => some { destinatario := destinatario, assunto := assunto }
  else
    none

/-- The lambda-notificacao batch loop. `sendOk` is the SES transport
oracle (false = the send throws). The single try/catch wraps the whole
`for` loop and rethrows, so a failed send ends the invocation: the result
is the list of emails actually delivered and `true` when the loop ran to
completion, `false` when it was aborted by a throw. -/
def runNotifBatch (sendOk : Email → Bool) : List StreamRecord → List Email × Bool
  | [] => ([], true)
  | record :: rest =>
    match processRecord record with
    | none => runNotifBatch sendOk rest
    | some email =>
      if sendOk email then
        let r := runNotifBatch sendOk rest
        (email :: r.1, r.2)
      else
        ([], false)

end LambdaNotificacao

namespace LambdaConfirmacao

/-- Extension check of lambda-confirmacao:
`key.toLowerCase().endsWith('.pdf')`, expressed on the character list so
that it evaluates by kernel reduction. -/
def ehPdf (key : String) : Bool :=
  List.isSuffixOf ".pdf".data (key.data.map Char.toLower)

/-- Derived display filename: `key.split('/').pop()`, i.e. the characters
after the last `/` (the whole key when it has no `/`), expressed on the
character list so that it evaluates by kernel reduction. -/
def nomeArquivo (key : String) : String :=
  String.mk ((key.data.reverse.takeWhile (fun c => c != '/')).reverse)

/-- The unconditional `UpdateCommand` of lambda-confirmacao, i.e. the
`markShipped` store mutation: SET `status = ENVIADO`,
`dataEnvio = now`, `referenciaNota = nomeArquivo` on the item keyed
`idPedido`. DynamoDB update upserts: when no item exists for the key, a
new item holding only the key and the SET attributes is created. -/
def updatePedidoEnvio (store : Store) (idPedido : String) (agora : Nat)
    (referenciaNota : String) : Store :=
  match getPedido store idPedido with
  | some item =>
    let atualizado :=
      { item with status := some "ENVIADO", dataEnvio := some agora,
                  referenciaNota := some referenciaNota }
    putPedido store atualizado
  | none =>
    let criado : Item :=
      { idPedido := idPedido, status := some "ENVIADO", dataEnvio := some agora,
        referenciaNota := some referenciaNota }
    putPedido store criado

/-- One S3 event record as seen by lambda-confirmacao: the (decoded)
object key and the `idPedido` object metadata returned by
`HeadObjectCommand` (`none` when the tag is absent). -/
structure S3Record where
  key : String
  metaIdPedido : Option String := none
deriving DecidableEq, Repr

/-- Effect of lambda-confirmacao on the table for a single S3 record, in
the run where no transport call fails: skip a key that is not a `.pdf`,
skip a missing (or falsy) `idPedido` metadata tag, otherwise perform the
`markShipped` update keyed by the tag with the derived filename. -/
def confirmStep (agora : Nat) (store : Store) (record : S3Record) : Store :=
  if ehPdf record.key then
    match jsTruthy record.metaIdPedido with
    | none => store
    | some idPedido => updatePedidoEnvio store idPedido agora (nomeArquivo record.key)
  else
    store

/-- The lambda-confirmacao batch loop. `headFails` tells which
`HeadObjectCommand` calls throw (the head is the first transport call and
is reached only for `.pdf` keys). The single try/catch wraps the whole
`for` loop and rethrows, so one failure ends the invocation: the result
is the table after the records actually processed and `true` when the
loop ran to completion, `false` when it was aborted by a throw. -/
def runConfirmBatch (headFails : String → Bool) (agora : Nat) :
    List S3Record → Store → Store × Bool
  | [], store => (store, true)
  | record :: rest, store =>
    if ehPdf record.key && headFails record.key then
      (store, false)
    else
      runConfirmBatch headFails agora rest (confirmStep agora store record)

end LambdaConfirmacao

/-! ## Claim theorems -/

/-- C1, counterexample: the claim says `markShipped` on an unknown id
fails with `NotFoundError`, leaves the store unchanged and creates no
record. On the empty table and the unknown id `X` the unconditional
`UpdateCommand` does not fail: it upserts, and the table afterwards holds
a fresh record for `X`. -/
theorem markShipped_unknown_id_creates_record_cex :
    getPedido [] "X" = none ∧
    LambdaConfirmacao.updatePedidoEnvio [] "X" 1111 "nota.pdf" =
      [{ idPedido := "X", status := some "ENVIADO",
         referenciaNota := some "nota.pdf", dataEnvio := some 1111 }] :=
  ⟨rfl, rfl⟩

/-- C1, amended: `markShipped` on an id with no record does not fail and
does not leave the store unchanged — the DynamoDB update upserts, creating
a record for the unknown id holding only the key, status `ENVIADO`
(SHIPPED), `dataEnvio` and `referenciaNota`; records of every other id are
untouched. -/
theorem markShipped_unknown_id_upserts (store : Store) (idPedido : String)
    (agora : Nat) (referenciaNota : String)
    (h : getPedido store idPedido = none) :
    getPedido (LambdaConfirmacao.updatePedidoEnvio store idPedido agora referenciaNota) idPedido =
      some { idPedido := idPedido, status := some "ENVIADO",
             referenciaNota := some referenciaNota, dataEnvio := some agora } ∧
    ∀ j, j ≠ idPedido →
      getPedido (LambdaConfirmacao.updatePedidoEnvio store idPedido agora referenciaNota) j =
        getPedido store j := by
  unfold LambdaConfirmacao.updatePedidoEnvio
  rw [h]
  refine ⟨?_, ?_⟩
  · rw [getPedido_putPedido]
    simp
  · intro j hj
    rw [getPedido_putPedido]
    simp [Ne.symm hj]

/-- C1 witness: the amended theorem applied at the empty store and the
unknown id `X`. -/
theorem markShipped_unknown_id_upserts_witness :
    getPedido (LambdaConfirmacao.updatePedidoEnvio [] "X" 1111 "nota.pdf") "X" =
      some { idPedido := "X", status := some "ENVIADO",
             referenciaNota := some "nota.pdf", dataEnvio := some 1111 } ∧
    getPedido (LambdaConfirmacao.updatePedidoEnvio [] "X" 1111 "nota.pdf") "Y" =
      getPedido [] "Y" := by
  have h := markShipped_unknown_id_upserts [] "X" 1111 "nota.pdf" rfl
  exact ⟨h.1, h.2 "Y" (by decide)⟩

/-- C2 (code bug): three orders created by `POST /pedidos` with the
`status` field omitted are stored with the default status `RECEBIDO`, but
the lambda-envio scan filters on the literal `RECEBIMENTO`, so at a sweep
where their ages are 2, 5 and 10 minutes the sweeper selects none of them
— the claim (and the age filter alone, as the second part shows on the
same orders relabelled `RECEBIMENTO`) expects exactly the two older
ones. -/
theorem sweeper_misses_default_status_orders :
    (let s1 := (ApiPedidos.criarPedido
        { emailCliente := some "a@x.com", nomeCliente := some "Ana", valor := some 100 }
        "p1" 480000 []).2
     let s2 := (ApiPedidos.criarPedido
        { emailCliente := some "b@x.com", nomeCliente := some "Bia", valor := some 100 }
        "p2" 300000 s1).2
     let s3 := (ApiPedidos.criarPedido
        { emailCliente := some "c@x.com", nomeCliente := some "Caio", valor := some 100 }
        "p3" 0 s2).2
     s3.all (fun p => p.status == some "RECEBIDO") = true ∧
     LambdaEnvio.handlerSelect s3 600000 = [] ∧
     (LambdaEnvio.handlerSelect
        (s3.map fun p => { p with status := some "RECEBIMENTO" }) 600000).map Item.idPedido =
       ["p3", "p2"]) := by
  refine ⟨rfl, rfl, ?_⟩
  rw [LambdaEnvio.handlerSelect_eq]
  decide

/-- A MODIFY stream record for order p1 (status RECEBIMENTO → PREPARACAO,
customer email a@x.com), used as the record whose notification fails. -/
def recNotifA : LambdaNotificacao.StreamRecord :=
  { eventName := .MODIFY,
    oldImage := some { idPedido := "p1", status := some "RECEBIMENTO" },
    newImage := { idPedido := "p1", emailCliente := some "a@x.com",
                  nomeCliente := some "Ana", valor := some 10,
                  status := some "PREPARACAO" } }

/-- A MODIFY stream record for order p2 (status RECEBIMENTO → PREPARACAO,
customer email b@x.com), whose notification succeeds. -/
def recNotifB : LambdaNotificacao.StreamRecord :=
  { eventName := .MODIFY,
    oldImage := some { idPedido := "p2", status := some "RECEBIMENTO" },
    newImage := { idPedido := "p2", emailCliente := some "b@x.com",
                  nomeCliente := some "Bia", valor := some 20,
                  status := some "PREPARACAO" } }

/-- An SES transport for which exactly the send addressed to a@x.com
throws. -/
def sesFalhaA : LambdaNotificacao.Email → Bool :=
  fun e => e.destinatario != "a@x.com"

/-- C3, counterexample: in the batch `[recNotifA, recNotifB]` the failed
send for p1 ends the invocation and p2's notification — which the second
conjunct shows would be delivered if its record were processed — is never
sent, refuting per-record failure isolation. -/
theorem notif_batch_no_isolation_cex :
    LambdaNotificacao.runNotifBatch sesFalhaA [recNotifA, recNotifB] = ([], false) ∧
    LambdaNotificacao.runNotifBatch sesFalhaA [recNotifB] =
      ([{ destinatario := "b@x.com", assunto := "Pedido em Preparação" }], true) :=
  ⟨rfl, rfl⟩

/-- C3, amended: a failure while notifying one record aborts the whole
lambda-notificacao invocation — the error propagates out of the loop, so
the records after the failing one are not processed at all; exactly the
notifications of the records preceding the failure are delivered. -/
theorem notif_failure_aborts_batch (sendOk : LambdaNotificacao.Email → Bool)
    (pre post : List LambdaNotificacao.StreamRecord)
    (r : LambdaNotificacao.StreamRecord) (e : LambdaNotificacao.Email)
    (hr : LambdaNotificacao.processRecord r = some e) (hfail : sendOk e = false)
    (hpre : ∀ r' ∈ pre, ∀ e', LambdaNotificacao.processRecord r' = some e' → sendOk e' = true) :
    LambdaNotificacao.runNotifBatch sendOk (pre ++ r :: post) =
      (pre.filterMap LambdaNotificacao.processRecord, false) := by
  induction pre with
  | nil =>
    simp [LambdaNotificacao.runNotifBatch, hr, hfail]
  | cons a t ih =>
    have hpt : ∀ r' ∈ t, ∀ e', LambdaNotificacao.processRecord r' = some e' → sendOk e' = true :=
      fun r' hmem => hpre r' (List.mem_cons_of_mem a hmem)
    cases ha : LambdaNotificacao.processRecord a with
    | none =>
      simp [LambdaNotificacao.runNotifBatch, ha, ih hpt, List.filterMap_cons]
    | some ea =>
      have hok : sendOk ea = true := hpre a (List.mem_cons_self a t) ea ha
      simp [LambdaNotificacao.runNotifBatch, ha, hok, ih hpt, List.filterMap_cons]

/-- C3 witness: the amended theorem applied at the batch
`[recNotifA, recNotifB]` with an empty prefix: the failing send for p1
ends the run with no notification delivered. -/
theorem notif_failure_aborts_batch_witness :
    LambdaNotificacao.runNotifBatch sesFalhaA ([] ++ recNotifA :: [recNotifB]) = ([], false) := by
  have h := notif_failure_aborts_batch sesFalhaA [] [recNotifB] recNotifA
    { destinatario := "a@x.com", assunto := "Pedido em Preparação" }
    rfl rfl (by simp)
  simpa using h

/-- C4, counterexample: two `.pdf` records tagged with orders A and B; the
head call for `A.pdf` throws, the invocation aborts, and B's shipment
update — which the second conjunct shows a batch holding only B's record
would perform — never happens, refuting per-item failure isolation. -/
theorem confirm_batch_no_isolation_cex :
    LambdaConfirmacao.runConfirmBatch (fun k => k == "A.pdf") 7
      [{ key := "A.pdf", metaIdPedido := some "A" },
       { key := "B.pdf", metaIdPedido := some "B" }] [] = ([], false) ∧
    getPedido (LambdaConfirmacao.runConfirmBatch (fun k => k == "A.pdf") 7
      [{ key := "B.pdf", metaIdPedido := some "B" }] []).1 "B" =
      some { idPedido := "B", status := some "ENVIADO",
             referenciaNota := some "B.pdf", dataEnvio := some 7 } :=
  ⟨rfl, rfl⟩

/-- C4, amended: a failure while processing one document-arrival record
aborts the whole lambda-confirmacao invocation — the error propagates out
of the loop, so the records after the failing one are not processed;
exactly the records preceding the failure have their effect applied to
the table. -/
theorem confirm_failure_aborts_batch (headFails : String → Bool) (agora : Nat)
    (pre post : List LambdaConfirmacao.S3Record) (r : LambdaConfirmacao.S3Record)
    (store : Store)
    (hpdf : LambdaConfirmacao.ehPdf r.key = true) (hfail : headFails r.key = true)
    (hpre : ∀ o ∈ pre, headFails o.key = false) :
    LambdaConfirmacao.runConfirmBatch headFails agora (pre ++ r :: post) store =
      (pre.foldl (LambdaConfirmacao.confirmStep agora) store, false) := by
  induction pre generalizing store with
  | nil =>
    simp [LambdaConfirmacao.runConfirmBatch, hpdf, hfail]
  | cons a t ih =>
    have hpt : ∀ o ∈ t, headFails o.key = false :=
      fun o hmem => hpre o (List.mem_cons_of_mem a hmem)
    have ha : headFails a.key = false := hpre a (List.mem_cons_self a t)
    simp only [List.cons_append, LambdaConfirmacao.runConfirmBatch, ha, Bool.and_false,
      Bool.false_eq_true, if_false, List.foldl_cons]
    exact ih _ hpt

/-- C4 witness: the amended theorem applied at the two-record batch with
an empty prefix: the head failure for `A.pdf` ends the run with the table
still empty. -/
theorem confirm_failure_aborts_batch_witness :
    LambdaConfirmacao.runConfirmBatch (fun k => k == "A.pdf") 7
      ([] ++ { key := "A.pdf", metaIdPedido := some "A" } ::
        [{ key := "B.pdf", metaIdPedido := some "B" }]) [] = ([], false) := by
  have h := confirm_failure_aborts_batch (fun k => k == "A.pdf") 7 []
    [{ key := "B.pdf", metaIdPedido := some "B" }]
    { key := "A.pdf", metaIdPedido := some "A" } [] rfl rfl (by simp)
  simpa using h

/-- C5, counterexample: the claim says creation fails with
`ValidationError` whenever `valor` is not a valid positive number. The
request with `valor = -5` passes the falsiness-only guard and is
persisted with the negative amount. -/
theorem criarPedido_negative_valor_persists_cex :
    ApiPedidos.criarPedido
        { emailCliente := some "a@b.com", nomeCliente := some "Ana", valor := some (-5) }
        "id1" 0 [] =
      (.created
        { idPedido := "id1", emailCliente := some "a@b.com", nomeCliente := some "Ana",
          valor := some (-5), data := some 0, status := some "RECEBIDO" },
       [{ idPedido := "id1", emailCliente := some "a@b.com", nomeCliente := some "Ana",
          valor := some (-5), data := some 0, status := some "RECEBIDO" }]) :=
  rfl

/-- C5, amended: `POST /pedidos` fails with the 400 validation error and
persists nothing exactly when `emailCliente` or `nomeCliente` is absent
or empty, or `valor` is absent or `0` (JS falsiness); every other numeric
`valor` — including a negative one — passes validation and the order is
persisted carrying exactly that amount, so a persisted creation need not
have a positive amount. -/
theorem criarPedido_truthiness_validation (req : ApiPedidos.CriarPedidoReq)
    (freshId : String) (agora : Nat) (store : Store) :
    ((truthyS req.emailCliente && truthyS req.nomeCliente && truthyN req.valor) = false →
      ApiPedidos.criarPedido req freshId agora store =
        (.badRequest "emailCliente, nomeCliente e valor são obrigatórios", store)) ∧
    ((truthyS req.emailCliente && truthyS req.nomeCliente && truthyN req.valor) = true →
      ApiPedidos.criarPedido req freshId agora store =
        (.created (ApiPedidos.pedidoDe req freshId agora),
         putPedido store (ApiPedidos.pedidoDe req freshId agora)) ∧
      (ApiPedidos.pedidoDe req freshId agora).valor = req.valor ∧
      (ApiPedidos.pedidoDe req freshId agora).status = some (req.status.getD "RECEBIDO")) := by
  refine ⟨?_, ?_⟩ <;> intro h <;>
    cases h1 : truthyS req.emailCliente <;> cases h2 : truthyS req.nomeCliente <;>
      cases h3 : truthyN req.valor <;>
    simp_all [ApiPedidos.criarPedido, ApiPedidos.pedidoDe]

/-- C5 witness: the amended theorem applied to a request missing
`emailCliente` (400, nothing persisted) and to a request with
`valor = -5` (persisted). -/
theorem criarPedido_truthiness_validation_witness :
    ApiPedidos.criarPedido { nomeCliente := some "Ana", valor := some 10 } "id2" 0 [] =
      (.badRequest "emailCliente, nomeCliente e valor são obrigatórios", []) ∧
    ApiPedidos.criarPedido
        { emailCliente := some "a@b.com", nomeCliente := some "Ana", valor := some (-5) }
        "id1" 0 [] =
      (.created (ApiPedidos.pedidoDe
          { emailCliente := some "a@b.com", nomeCliente := some "Ana", valor := some (-5) }
          "id1" 0),
       putPedido [] (ApiPedidos.pedidoDe
          { emailCliente := some "a@b.com", nomeCliente := some "Ana", valor := some (-5) }
          "id1" 0)) := by
  refine ⟨(criarPedido_truthiness_validation _ "id2" 0 []).1 (by decide), ?_⟩
  exact ((criarPedido_truthiness_validation _ "id1" 0 []).2 (by decide)).1

/-- C6: the lambda-notificacao decision for one stream record: a
notification is produced exactly when the record is a MODIFY, the status
changed, a template exists for the new status and `emailCliente` is a
non-empty string; when produced it is addressed to the order's
`emailCliente`; and a skipped record is a non-fatal no-op of the batch
loop. -/
theorem processRecord_notifies_iff (r : LambdaNotificacao.StreamRecord) :
    ((LambdaNotificacao.processRecord r).isSome = true ↔
      (r.eventName = .MODIFY ∧
       r.oldImage.bind Item.status ≠ r.newImage.status ∧
       (r.newImage.status.bind LambdaNotificacao.emailTemplates).isSome = true ∧
       jsTruthy r.newImage.emailCliente ≠ none)) ∧
    (∀ e, LambdaNotificacao.processRecord r = some e →
      jsTruthy r.newImage.emailCliente = some e.destinatario) ∧
    (LambdaNotificacao.processRecord r = none →
      ∀ sendOk rest, LambdaNotificacao.runNotifBatch sendOk (r :: rest) =
        LambdaNotificacao.runNotifBatch sendOk rest) := by
  refine ⟨?_, ?_, ?_⟩
  · unfold LambdaNotificacao.processRecord
    by_cases hev : r.eventName = .MODIFY
    · simp only [hev, if_true]
      by_cases hst : r.oldImage.bind Item.status = r.newImage.status
      · simp [hst]
      · simp only [hst, if_false]
        cases ht : r.newImage.status.bind LambdaNotificacao.emailTemplates with
        | none => simp [ht, hst]
        | some assunto =>
          cases he : jsTruthy r.newImage.emailCliente with
          | none => simp [ht, he, hst]
          | some dest => simp [ht, he, hst]
    · simp [hev]
  · intro e he
    unfold LambdaNotificacao.processRecord at he
    by_cases hev : r.eventName = .MODIFY
    · simp only [hev, if_true] at he
      by_cases hst : r.oldImage.bind Item.status = r.newImage.status
      · simp [hst] at he
      · simp only [hst, if_false] at he
        cases ht : r.newImage.status.bind LambdaNotificacao.emailTemplates with
        | none => simp [ht] at he
        | some assunto =>
          cases hm : jsTruthy r.newImage.emailCliente with
          | none => simp [ht, hm] at he
          | some dest =>
            simp only [ht, hm] at he
            cases he
            rfl
    · simp [hev] at he
  · intro hnone sendOk rest
    simp [LambdaNotificacao.runNotifBatch, hnone]

/-- C6 witness: the theorem applied to a concrete MODIFY record with a
status change (one notification to the customer) and, through the no-op
part, to an identical-status MODIFY record. -/
theorem processRecord_notifies_iff_witness :
    (LambdaNotificacao.processRecord recNotifB).isSome = true ∧
    jsTruthy recNotifB.newImage.emailCliente =
      some (LambdaNotificacao.Email.destinatario
        { destinatario := "b@x.com", assunto := "Pedido em Preparação" }) ∧
    LambdaNotificacao.runNotifBatch sesFalhaA
        [{ eventName := .MODIFY,
           oldImage := some { idPedido := "p9", status := some "ENVIADO" },
           newImage := { idPedido := "p9", emailCliente := some "z@x.com",
                         status := some "ENVIADO" } }] =
      LambdaNotificacao.runNotifBatch sesFalhaA [] := by
  refine ⟨?_, ?_, ?_⟩
  · exact (processRecord_notifies_iff recNotifB).1.mpr
      (by refine ⟨rfl, by decide, rfl, by decide⟩)
  · exact (processRecord_notifies_iff recNotifB).2.1
      { destinatario := "b@x.com", assunto := "Pedido em Preparação" } rfl
  · exact (processRecord_notifies_iff
      { eventName := .MODIFY,
        oldImage := some { idPedido := "p9", status := some "ENVIADO" },
        newImage := { idPedido := "p9", emailCliente := some "z@x.com",
                      status := some "ENVIADO" } }).2.2 rfl sesFalhaA []

/-- C7: lambda-preparacao on an unknown (truthy) id answers 404 after the
one read and leaves the table untouched; on a known id it answers 200
with the stored item changed only in its `status` field (now
`PREPARACAO`), persists exactly that item, and leaves every other id's
record unchanged. -/
theorem preparacao_notfound_and_frame (store : Store) (idPedido : String)
    (h : idPedido ≠ "") :
    (getPedido store idPedido = none →
      LambdaPreparacao.handler store (some idPedido) =
        (.notFound, store, [.read idPedido])) ∧
    (∀ item, getPedido store idPedido = some item →
      LambdaPreparacao.handler store (some idPedido) =
        (.ok { item with status := some "PREPARACAO" },
         putPedido store { item with status := some "PREPARACAO" },
         [.read idPedido, .write idPedido]) ∧
      getPedido (LambdaPreparacao.handler store (some idPedido)).2.1 idPedido =
        some { item with status := some "PREPARACAO" } ∧
      ∀ j, j ≠ idPedido →
        getPedido (LambdaPreparacao.handler store (some idPedido)).2.1 j =
          getPedido store j) := by
  have hjs : jsTruthy (some idPedido) = some idPedido := by simp [jsTruthy, h]
  constructor
  · intro hn
    simp [LambdaPreparacao.handler, hjs, hn]
  · intro item hs
    have hid : item.idPedido = idPedido := getPedido_eq_some store idPedido item hs
    refine ⟨?_, ?_, ?_⟩
    · simp [LambdaPreparacao.handler, hjs, hs]
    · simp [LambdaPreparacao.handler, hjs, hs, getPedido_putPedido, hid]
    · intro j hj
      simp only [LambdaPreparacao.handler, hjs, hs]
      rw [getPedido_putPedido]
      simp only [hid]
      simp [Ne.symm hj]

/-- C7 witness: the theorem applied at a one-item table: the unknown id
`zz` yields 404 with the table unchanged; the known id `p1` yields the
item with only `status` rewritten. -/
theorem preparacao_notfound_and_frame_witness :
    LambdaPreparacao.handler [{ idPedido := "p1", emailCliente := some "a@x.com" }] (some "zz") =
      (.notFound, [{ idPedido := "p1", emailCliente := some "a@x.com" }], [.read "zz"]) ∧
    LambdaPreparacao.handler
        [{ idPedido := "p1", emailCliente := some "a@x.com", nomeCliente := some "Ana",
           valor := some 10, data := some 0 }] (some "p1") =
      (.ok { idPedido := "p1", emailCliente := some "a@x.com", nomeCliente := some "Ana",
             valor := some 10, data := some 0, status := some "PREPARACAO" },
       [{ idPedido := "p1", emailCliente := some "a@x.com", nomeCliente := some "Ana",
          valor := some 10, data := some 0, status := some "PREPARACAO" }],
       [.read "p1", .write "p1"]) := by
  constructor
  · exact (preparacao_notfound_and_frame
      [{ idPedido := "p1", emailCliente := some "a@x.com" }] "zz" (by decide)).1 rfl
  · exact ((preparacao_notfound_and_frame
      [{ idPedido := "p1", emailCliente := some "a@x.com", nomeCliente := some "Ana",
         valor := some 10, data := some 0 }] "p1" (by decide)).2 _ rfl).1

/-- C8: the Document Intake Router's effect per S3 record: no table
mutation for a key that is not a `.pdf`; a `.pdf` with an absent (or
empty) `idPedido` metadata tag is skipped without error (the step is a
total no-op); a `.pdf` whose tag is the non-empty string `X` performs
exactly the `markShipped` update for `X` with the key's final path
segment as the shipment reference. -/
theorem confirm_router_invokes_markShipped_iff (agora : Nat) (store : Store)
    (record : LambdaConfirmacao.S3Record) :
    (LambdaConfirmacao.ehPdf record.key = false →
      LambdaConfirmacao.confirmStep agora store record = store) ∧
    (LambdaConfirmacao.ehPdf record.key = true →
      jsTruthy record.metaIdPedido = none →
      LambdaConfirmacao.confirmStep agora store record = store) ∧
    (∀ idPedido, LambdaConfirmacao.ehPdf record.key = true →
      jsTruthy record.metaIdPedido = some idPedido →
      LambdaConfirmacao.confirmStep agora store record =
        LambdaConfirmacao.updatePedidoEnvio store idPedido agora
          (LambdaConfirmacao.nomeArquivo record.key)) := by
  refine ⟨?_, ?_, ?_⟩ <;> intros <;> simp [LambdaConfirmacao.confirmStep, *]

/-- C8 witness: the theorem applied at a `.txt` object (no mutation), a
`.pdf` object without tag (skipped), and a tagged `.pdf` object (the
`markShipped` update with the derived filename `nota.pdf`). -/
theorem confirm_router_invokes_markShipped_iff_witness :
    LambdaConfirmacao.confirmStep 7 [] { key := "docs/nota.txt", metaIdPedido := some "X" } = [] ∧
    LambdaConfirmacao.confirmStep 7 [] { key := "docs/nota.pdf" } = [] ∧
    LambdaConfirmacao.confirmStep 7 [] { key := "docs/nota.pdf", metaIdPedido := some "X" } =
      LambdaConfirmacao.updatePedidoEnvio [] "X" 7 "nota.pdf" := by
  refine ⟨?_, ?_, ?_⟩
  · exact (confirm_router_invokes_markShipped_iff 7 []
      { key := "docs/nota.txt", metaIdPedido := some "X" }).1 (by decide)
  · exact (confirm_router_invokes_markShipped_iff 7 []
      { key := "docs/nota.pdf" }).2.1 (by decide) rfl
  · have h := (confirm_router_invokes_markShipped_iff 7 []
      { key := "docs/nota.pdf", metaIdPedido := some "X" }).2.2 "X" (by decide) rfl
    simpa using h

/-- C9: the upload endpoint checks order existence before touching the
object store: with no file in the request it answers 400 having performed
no S3 write, and with a file but an unknown order id it answers 404
having performed no S3 write. -/
theorem upload_checks_existence_before_write (store : Store) (idPedido : String)
    (agora : Nat) :
    (∀ f, getPedido store idPedido = none →
      ApiPedidos.uploadArquivo store idPedido (some f) agora = (.naoEncontrado, [])) ∧
    ApiPedidos.uploadArquivo store idPedido none agora = (.semArquivo, []) := by
  constructor
  · intro f hn
    simp [ApiPedidos.uploadArquivo, hn]
  · rfl

/-- C9 witness: the theorem applied at the empty table: uploading
`nota.pdf` for the unknown order `p1` answers 404 with no S3 write, and a
request with no file answers 400 with no S3 write. -/
theorem upload_checks_existence_before_write_witness :
    ApiPedidos.uploadArquivo [] "p1" (some "nota.pdf") 5 = (.naoEncontrado, []) ∧
    ApiPedidos.uploadArquivo [] "p1" none 5 = (.semArquivo, []) :=
  ⟨(upload_checks_existence_before_write [] "p1" 5).1 "nota.pdf" rfl,
   (upload_checks_existence_before_write [] "p1" 5).2⟩

/-- C10: lambda-preparacao rejects every payload whose `idPedido` field
is absent or falsy with the 400 validation response, performing no
DynamoDB operation at all, so the table is unchanged. -/
theorem preparacao_rejects_falsy_id (store : Store) (idPedido : Option String)
    (h : jsTruthy idPedido = none) :
    LambdaPreparacao.handler store idPedido = (.badRequest, store, []) := by
  simp [LambdaPreparacao.handler, h]

/-- C10 witness: the theorem applied at a non-empty table with an absent
`idPedido` and with the falsy empty-string `idPedido`. -/
theorem preparacao_rejects_falsy_id_witness :
    LambdaPreparacao.handler [{ idPedido := "p1" }] none =
      (.badRequest, [{ idPedido := "p1" }], []) ∧
    LambdaPreparacao.handler [{ idPedido := "p1" }] (some "") =
      (.badRequest, [{ idPedido := "p1" }], []) :=
  ⟨preparacao_rejects_falsy_id [{ idPedido := "p1" }] none rfl,
   preparacao_rejects_falsy_id [{ idPedido := "p1" }] (some "") rfl⟩

end ProjetoAws
